import Mathlib

/-!
Verification of the gasync coordination layer: a shallow embedding of the
`FirestoreEngine` lock / checkpoint protocol and the `GTasksScheduler`
signing and scheduling code, with theorems settling the claims of
the specification about them.

Conventions of the embedding:
* Go `time.Time` values are abstract integer instants (`Time`); the zero
  `time.Time` is `0` and `time.Minute` is the constant `leaseDuration`.
* The Firestore document holding a `DBWorkflow` is `Doc`; its `version`
  field models the server-side update time of the document, which is bumped by
  every committed write and compared by the `firestore.LastUpdateTime`
  precondition used in `FirestoreEngine.Lock`.
* External calls (Firestore reads/writes, the async interpreter, Cloud
  Tasks) are resolved by explicit oracle environments, so every engine
  operation becomes a pure function from its environment to its result and
  its observable event trace.
* Go byte strings are `Bytes := List Nat`.
-/

namespace Gasync

/-- Go byte strings (`[]byte` / `string` contents). -/
abbrev Bytes := List Nat

/-- The `async.State` metadata record stored as `Meta` in a `DBWorkflow`. -/
structure Meta where
  id : String
  workflow : String
  pc : Nat
  status : String
  deriving Repr, DecidableEq

/-- Firestore document of a `DBWorkflow`: fields `Meta`, `State` (opaque
JSON blob), `LockTill`, plus `version` modelling the last-update
time of the document used by conditional updates, and `extra` standing for any
other stored field this layer never touches (the frame). -/
structure Doc where
  meta : Meta
  state : String
  lockTill : Int
  version : Nat
  extra : String
  deriving Repr, DecidableEq

/-- Lease duration used by `FirestoreEngine.Lock` (`time.Minute`). -/
def leaseDuration : Int := 60

/-- Go `time.Since(lockTill) < 0`, i.e. the lease expiry is still in the
future at instant `now`. -/
def lockIsHeld (now till : Int) : Bool := decide (now - till < 0)

/-- Firestore `Update` of `LockTill` guarded by
`firestore.LastUpdateTime(observed)`: the write commits only if the
update time of the document still equals the one observed at read time, and a
committed write bumps the update time.  This is the conditional update
`FirestoreEngine.Lock` performs to claim the lease. -/
def lockUpdate (d : Doc) (observed : Nat) (now : Int) : Option Doc :=
  if d.version = observed then
    some { d with lockTill := now + leaseDuration, version := d.version + 1 }
  else
    none

/-- Outcome of the Firestore document read at the top of a `Lock`
iteration: `Get` failure, `DataTo` unmarshal failure, or a snapshot. -/
inductive ReadResult where
  | getErr : ReadResult
  | badDoc : ReadResult
  | ok : Doc → ReadResult
  deriving Repr, DecidableEq

/-- Outcome the store gives the conditional `LockTill` update of one
`Lock` iteration. -/
inductive UpdResult where
  | ok : UpdResult
  | failedPrecondition : UpdResult
  | otherErr : UpdResult
  deriving Repr, DecidableEq

/-- Oracle for one iteration of the `Lock` retry loop: the current
instant, what the read returns, and what the conditional update would
return if attempted. -/
structure LockIter where
  now : Int
  read : ReadResult
  upd : UpdResult
  deriving Repr, DecidableEq

/-- Error taxonomy of `FirestoreEngine.Lock`. -/
inductive LockErr where
  | getErr : LockErr
  | badDoc : LockErr
  | timeout : LockErr
  | updateErr : LockErr
  deriving Repr, DecidableEq

/-- Result of a `Lock` run: success with the snapshot, an error, or an
exhausted oracle trace (the run is longer than the supplied environment;
used only to keep the embedding total). -/
inductive LockStatus where
  | ok : Doc → LockStatus
  | err : LockErr → LockStatus
  | outOfTrace : LockStatus
  deriving Repr, DecidableEq

/-- Observables of a `Lock` run: its status, how many document reads it
issued, how many conditional lock writes it attempted, and the backoff
sleeps (in ms) it performed, in order. -/
structure LockOutcome where
  status : LockStatus
  reads : Nat
  updates : Nat
  sleeps : List Nat
  deriving Repr, DecidableEq

/-- The retry loop of `FirestoreEngine.Lock`, one oracle entry per
iteration, with `i` the Go loop counter.  Faithful to the source: a read
or unmarshal failure returns immediately; a held lease retries with sleep
`100*i` ms unless `i > 50`, in which case the lock-timeout error is
returned; a free lease triggers the conditional update, whose
`FailedPrecondition` rejection retries the whole sequence, other failures
return, and success returns the snapshot. -/
def lockLoop : List LockIter → Nat → LockOutcome
  | [], _ => ⟨.outOfTrace, 0, 0, []⟩
  | it :: rest, i =>
    match it.read with
    | .getErr => ⟨.err .getErr, 1, 0, []⟩
    | .badDoc => ⟨.err .badDoc, 1, 0, []⟩
    | .ok wf =>
      if lockIsHeld it.now wf.lockTill then
        if i > 50 then ⟨.err .timeout, 1, 0, []⟩
        else
          let o := lockLoop rest (i + 1)
          ⟨o.status, o.reads + 1, o.updates, 100 * i :: o.sleeps⟩
      else
        match it.upd with
        | .failedPrecondition =>
          let o := lockLoop rest (i + 1)
          ⟨o.status, o.reads + 1, o.updates + 1, o.sleeps⟩
        | .otherErr => ⟨.err .updateErr, 1, 1, []⟩
        | .ok => ⟨.ok wf, 1, 1, []⟩

/-- Model of `FirestoreEngine.Lock` as a function of its iteration oracle. -/
def Lock (env : List LockIter) : LockOutcome := lockLoop env 0

/-- An iteration whose read observes the lease held (`LockTill` in the
future). -/
def heldIter (it : LockIter) : Bool :=
  match it.read with
  | .ok wf => lockIsHeld it.now wf.lockTill
  | _ => false

/-- Model of `FirestoreEngine.Save`: one batched Firestore commit updating paths
`Meta` and `State`, and additionally resetting `LockTill` to the zero
time when `unlock` is true.  The commit is a single write, so it bumps
the update time once; `extra` (all other stored fields) is untouched. -/
def Save (d : Doc) (meta : Meta) (state : String) (unlock : Bool) : Doc :=
  { d with
    meta := meta
    state := state
    lockTill := if unlock then 0 else d.lockTill
    version := d.version + 1 }

/-- Oracle environment resolving the external calls of one engine
operation (`HandleEvent`, `HandleCallback` or `Resume`): the lock result,
the `Workflows` registry lookup, the JSON round trip of the stored state,
the interpreter invocation (its output and whether it errored), the
checkpoint save and the redundant schedule. -/
structure EngineEnv where
  lock : Option Doc
  wfFound : Bool
  marshalOk : Bool
  unmarshalOk : Bool
  interpOut : Option String
  interpOk : Bool
  saveOk : Bool
  scheduleOk : Bool
  deriving Repr, DecidableEq

/-- Error taxonomy of the engine operations. -/
inductive EngErr where
  | lockErr : EngErr
  | wfNotFound : EngErr
  | marshalErr : EngErr
  | unmarshalErr : EngErr
  | interpErr : EngErr
  | saveErr : EngErr
  | createErr : EngErr
  deriving Repr, DecidableEq

/-- Observable events of an engine operation, in program order.
`scheduleStart` is the launch of the `go func` running
`Scheduler.Schedule`; `scheduleDone ok` is the `wg.Wait()` join observing
the goroutine result; `save r ok` is the `Save` call with release flag
`r` and commit result `ok`; `reply` is the return to the caller. -/
inductive Ev where
  | lockAcq : Ev
  | unlock : Ev
  | scheduleStart : Ev
  | scheduleDone : Bool → Ev
  | save : Bool → Bool → Ev
  | reply : Ev
  deriving Repr, DecidableEq

/-- Model of `FirestoreEngine.HandleEvent` as a function of its oracle: returns
the interpreter output handed to the caller, the error, and the event
trace.  Faithful to the source: every pre-save failure calls `Unlock`
before returning; a save failure returns the interpreter output together
with the wrapped error, without calling `Unlock` and without waiting for
the schedule goroutine; on success the goroutine is joined before the
reply and its failure is only logged. -/
def HandleEvent (env : EngineEnv) : Option String × Option EngErr × List Ev :=
  match env.lock with
  | none => (none, some .lockErr, [.reply])
  | some _ =>
    if !env.wfFound then
      (none, some .wfNotFound, [.lockAcq, .unlock, .reply])
    else if !env.marshalOk then
      (none, some .marshalErr, [.lockAcq, .unlock, .reply])
    else if !env.unmarshalOk then
      (none, some .unmarshalErr, [.lockAcq, .unlock, .reply])
    else if !env.interpOk then
      (env.interpOut, some .interpErr, [.lockAcq, .unlock, .reply])
    else if !env.saveOk then
      (env.interpOut, some .saveErr, [.lockAcq, .scheduleStart, .save true false, .reply])
    else
      (env.interpOut, none,
        [.lockAcq, .scheduleStart, .save true true, .scheduleDone env.scheduleOk, .reply])

/-- Model of `FirestoreEngine.HandleCallback` as a function of its oracle; the
control flow is identical to `HandleEvent` with the interpreter entry
point `async.HandleCallback` in place of `async.HandleEvent`. -/
def HandleCallback (env : EngineEnv) : Option String × Option EngErr × List Ev :=
  match env.lock with
  | none => (none, some .lockErr, [.reply])
  | some _ =>
    if !env.wfFound then
      (none, some .wfNotFound, [.lockAcq, .unlock, .reply])
    else if !env.marshalOk then
      (none, some .marshalErr, [.lockAcq, .unlock, .reply])
    else if !env.unmarshalOk then
      (none, some .unmarshalErr, [.lockAcq, .unlock, .reply])
    else if !env.interpOk then
      (env.interpOut, some .interpErr, [.lockAcq, .unlock, .reply])
    else if !env.saveOk then
      (env.interpOut, some .saveErr, [.lockAcq, .scheduleStart, .save true false, .reply])
    else
      (env.interpOut, none,
        [.lockAcq, .scheduleStart, .save true true, .scheduleDone env.scheduleOk, .reply])

/-- Model of `FirestoreEngine.Resume` as a function of its oracle.  Faithful to
the source: it invokes `async.Resume` and then `Save` with the release
flag set; it launches no schedule goroutine at all, and a save failure
returns the error without calling `Unlock`. -/
def Resume (env : EngineEnv) : Option EngErr × List Ev :=
  match env.lock with
  | none => (some .lockErr, [.reply])
  | some _ =>
    if !env.wfFound then
      (some .wfNotFound, [.lockAcq, .unlock, .reply])
    else if !env.marshalOk then
      (some .marshalErr, [.lockAcq, .unlock, .reply])
    else if !env.unmarshalOk then
      (some .unmarshalErr, [.lockAcq, .unlock, .reply])
    else if !env.interpOk then
      (some .interpErr, [.lockAcq, .unlock, .reply])
    else if !env.saveOk then
      (some .saveErr, [.lockAcq, .save true false, .reply])
    else
      (none, [.lockAcq, .save true true, .reply])

/-- An event that releases the lease: an explicit `Unlock` call, or a
committed `Save` with the release flag set (which clears `LockTill` in
the same write). -/
def releasesLease : Ev → Bool
  | .unlock => true
  | .save r ok => r && ok
  | _ => false

/-- Whether a trace releases the lease on some step. -/
def leaseReleased (tr : List Ev) : Bool := tr.any releasesLease

/-- Oracle for `FirestoreEngine.ScheduleAndCreate`: the registry lookup,
the initial `async.Resume` invocation, and the Firestore `Create`. -/
structure CreateEnv where
  wfFound : Bool
  resumeOk : Bool
  createOk : Bool
  deriving Repr, DecidableEq

/-- Observable events of `ScheduleAndCreate`, in program order. -/
inductive CreateEv where
  | unlock : CreateEv
  | resumeRun : Bool → CreateEv
  | create : Bool → CreateEv
  | reply : CreateEv
  deriving Repr, DecidableEq

/-- Metadata produced by `async.NewState(id, name)` of the external
interpreter library: a fresh record for instance `id` of workflow type
`name`, at program counter 0. -/
def NewState (id name : String) : Meta :=
  ⟨id, name, 0, ""⟩

/-- Result of a `ScheduleAndCreate` run: the returned error, the
document as committed by the Firestore `Create` (when one committed),
and the observable events in program order. -/
structure CreateResult where
  err : Option EngErr
  created : Option Doc
  events : List CreateEv
  deriving Repr, DecidableEq

/-- Model of `FirestoreEngine.ScheduleAndCreate`, including the state
data flow.  Faithful to the source: the function builds
`wf := DBWorkflow{Meta: async.NewState(id, name), State: state}` from
its raw `state` argument, and a registry miss calls `Unlock` and returns
before any `Create`; then `s := w()` yields the fresh constructor value
`fresh`, and `async.Resume(ctx, s, &wf.Meta)` — modelled by the oracle
`resumeFn`, returning the mutated state object and the mutated metadata —
runs before the `Create` (its failure also calls `Unlock` and returns
with no document created).  The committed document persists the
post-Resume `wf.Meta` together with `wf.State = state`, the pre-Resume
argument: the resumed state object `s` is dropped, which is why the
first component of `resumeFn` is discarded below and only its metadata
component reaches the document. -/
def ScheduleAndCreate (env : CreateEnv) (id name : String) (state fresh : String)
    (resumeFn : String → Meta → String × Meta) : CreateResult :=
  if !env.wfFound then
    ⟨some .wfNotFound, none, [.unlock, .reply]⟩
  else
    let r := resumeFn fresh (NewState id name)
    if !env.resumeOk then
      ⟨some .interpErr, none, [.resumeRun false, .unlock, .reply]⟩
    else if !env.createOk then
      ⟨some .createErr, none, [.resumeRun true, .create false, .reply]⟩
    else
      ⟨none, some ⟨r.2, state, 0, 0, ""⟩, [.resumeRun true, .create true, .reply]⟩

/-- Decimal rendering `fmt.Sprint(n)` of a non-negative integer as the
byte string of its ASCII digits. -/
def natDecimal (n : Nat) : Bytes :=
  if n = 0 then [48] else ((Nat.digits 10 n).map (fun d => d + 48)).reverse

/-- The `async.CallbackRequest` fields the scheduler reads: the callback
name, thread id, workflow (instance) id, program counter, and the opaque
`SetupData` persisted by `Setup`. -/
structure CallbackRequest where
  name : Bytes
  threadID : Bytes
  workflowID : Bytes
  pc : Nat
  setupData : Bytes
  deriving Repr, DecidableEq

/-- Body of a queue-delivered timeout callback (`TimeoutReq`). -/
structure TimeoutReq where
  req : CallbackRequest
  signature : Bytes
  deriving Repr, DecidableEq

/-- Body of a queue-delivered resume callback (`ResumeRequest`). -/
structure ResumeRequest where
  id : Bytes
  signature : Bytes
  deriving Repr, DecidableEq

/-- A keyed message authentication code: `mac secret message` is the tag.
`crypto/hmac` over `crypto/sha256` is an external library, so the tag
function is a parameter of the theorems; the own
contribution of the repository, embedded below, is which bytes are authenticated. -/
abbrev Mac := Bytes → Bytes → Bytes

/-- Authenticated bytes of `TimeoutReq.HMAC`: the sequential
`h.Write` calls of `Name`, `ThreadID`, `WorkflowID` and
`fmt.Sprint(PC)`, i.e. their concatenation. -/
def timeoutMsg (r : CallbackRequest) : Bytes :=
  r.name ++ (r.threadID ++ (r.workflowID ++ natDecimal r.pc))

/-- Tag computation `TimeoutReq.HMAC(secret)`. -/
def timeoutHMAC (mac : Mac) (secret : Bytes) (r : CallbackRequest) : Bytes :=
  mac secret (timeoutMsg r)

/-- Tag computation `ResumeRequest.HMAC(secret)`, over the instance id alone. -/
def resumeHMAC (mac : Mac) (secret : Bytes) (id : Bytes) : Bytes :=
  mac secret id

/-- The signature check the handlers perform:
`req.HMAC(secret) == req.Signature`. -/
def verifyTimeout (mac : Mac) (secret : Bytes) (r : CallbackRequest) (tag : Bytes) : Bool :=
  timeoutHMAC mac secret r == tag

/-- The signature check of the resume handler. -/
def verifyResume (mac : Mac) (secret : Bytes) (id : Bytes) (tag : Bytes) : Bool :=
  resumeHMAC mac secret id == tag

/-- Model of `GTasksScheduler.TimeoutHandler` as a function of the decoded body,
with the engine call abstracted as a document transformer `engine` (what
`Engine.HandleCallback` would do to the stored instance).  Returns the
HTTP status, the resulting stored document, and whether the engine was
invoked.  Faithful to the source: a JSON decode failure answers 400, a
signature mismatch answers 403, both before any engine call; only a
verified request reaches the engine. -/
def TimeoutHTTPHandler (mac : Mac) (secret : Bytes) (body : Option TimeoutReq)
    (engine : Doc → Doc × Bool) (stored : Doc) : Nat × Doc × Bool :=
  match body with
  | none => (400, stored, false)
  | some req =>
    if verifyTimeout mac secret req.req req.signature then
      let r := engine stored
      (if r.2 then 200 else 500, r.1, true)
    else
      (403, stored, false)

/-- Model of `GTasksScheduler.ResumeHandler` as a function of the decoded body,
with the engine call abstracted as a document transformer (what
`Engine.Resume` would do).  A decode failure returns without writing a
status (the implicit 200 of Go); a signature mismatch answers 403 before any
engine call. -/
def ResumeHTTPHandler (mac : Mac) (secret : Bytes) (body : Option ResumeRequest)
    (engine : Doc → Doc × Bool) (stored : Doc) : Nat × Doc × Bool :=
  match body with
  | none => (200, stored, false)
  | some req =>
    if verifyResume mac secret req.id req.signature then
      let r := engine stored
      (if r.2 then 200 else 500, r.1, true)
    else
      (403, stored, false)

/-- Modelled from the external `encoding/json` library: the marshalled
form of `GTasksSchedulerData{ID: taskID}`, an invertible rendering of the
task name. -/
def marshalSchedulerData (taskID : Bytes) : Bytes :=
  73 :: 68 :: 61 :: taskID

/-- Modelled from the external `encoding/json` library: unmarshalling of
`GTasksSchedulerData`, the partial inverse of `marshalSchedulerData`;
any byte string not of the marshalled shape fails to decode. -/
def unmarshalSchedulerData : Bytes → Option Bytes
  | 73 :: 68 :: 61 :: taskID => some taskID
  | _ => none

/-- Handle returned by `GTasksScheduler.Setup` when the queue created the
task under name `taskID`: the marshalled `GTasksSchedulerData`, which the
interpreter persists as the `SetupData` of the request. -/
def SetupHandle (taskID : Bytes) : Bytes :=
  marshalSchedulerData taskID

/-- Model of `GTasksScheduler.Teardown` as a function of the delete result.
Returns the error and the list of task ids for which a queue `Delete`
call was issued.  Faithful to the source: `handled = true` returns nil
without any delete; otherwise the `SetupData` is unmarshalled (failure is
returned, with no delete issued) and exactly one delete is issued for the
recorded task id, whose failure is logged and not returned. -/
def Teardown (req : CallbackRequest) (handled : Bool) (deleteOk : Bool) :
    Option EngErr × List Bytes :=
  if handled then
    (none, [])
  else
    match unmarshalSchedulerData req.setupData with
    | none => (some .unmarshalErr, [])
    | some taskID =>
      let _ := deleteOk
      (none, [taskID])

/-! ## Helper lemmas -/

/-- A `lockLoop` run whose every iteration observes the lease held:
starting at loop counter `i ≤ 51`, it times out after `52 - i` reads, with
no conditional write attempted, sleeping `100 * (i + k)` ms before retry
`k`. -/
theorem lockLoop_allHeld (env : List LockIter) :
    ∀ i, (∀ it ∈ env, heldIter it = true) → i ≤ 51 → 52 - i ≤ env.length →
      lockLoop env i =
        ⟨.err .timeout, 52 - i, 0, (List.range (51 - i)).map (fun k => 100 * (i + k))⟩ := by
  induction env with
  | nil =>
    intro i _ _ hl
    simp only [List.length_nil, Nat.le_zero] at hl
    omega
  | cons it rest ih =>
    intro i hheld hi hl
    have h1 : heldIter it = true := hheld it (List.mem_cons_self it rest)
    obtain ⟨wf, hread, hlive⟩ :
        ∃ wf, it.read = .ok wf ∧ lockIsHeld it.now wf.lockTill = true := by
      unfold heldIter at h1
      cases hr : it.read with
      | getErr => rw [hr] at h1; cases h1
      | badDoc => rw [hr] at h1; cases h1
      | ok wf => exact ⟨wf, rfl, by rw [hr] at h1; exact h1⟩
    by_cases h50 : i > 50
    · have hi51 : i = 51 := by omega
      subst hi51
      simp [lockLoop, hread, hlive]
    · have hrec := ih (i + 1) (fun x hx => hheld x (List.mem_cons_of_mem it hx))
        (by omega) (by simp only [List.length_cons] at hl; omega)
      have hsleeps : (List.range (51 - i)).map (fun k => 100 * (i + k))
          = 100 * i :: (List.range (51 - (i + 1))).map (fun k => 100 * (i + 1 + k)) := by
        have h' : 51 - i = (51 - (i + 1)) + 1 := by omega
        have hfun : ((fun k => 100 * (i + k)) ∘ Nat.succ) = fun k => 100 * (i + 1 + k) := by
          funext k
          simp only [Function.comp]
          omega
        rw [h', List.range_succ_eq_map, List.map_cons, List.map_map, hfun]
        refine congrArg₂ _ (by omega) rfl
      have hstep : lockLoop (it :: rest) i =
          ⟨(lockLoop rest (i + 1)).status, (lockLoop rest (i + 1)).reads + 1,
            (lockLoop rest (i + 1)).updates, 100 * i :: (lockLoop rest (i + 1)).sleeps⟩ := by
        simp [lockLoop, hread, hlive, h50]
      rw [hstep, hrec]
      simp only [LockOutcome.mk.injEq]
      exact ⟨trivial, by omega, trivial, hsleeps.symm⟩

/-- Decimal rendering is injective: two distinct numbers render to
distinct digit strings. -/
theorem natDecimal_injective : Function.Injective natDecimal := by
  intro m n h
  unfold natDecimal at h
  by_cases hm : m = 0 <;> by_cases hn : n = 0
  · omega
  · exfalso
    rw [if_pos hm, if_neg hn] at h
    have h2 : (Nat.digits 10 n).map (fun d => d + 48) = [48] := by
      have h3 := congrArg List.reverse h
      simpa using h3.symm
    cases hd : Nat.digits 10 n with
    | nil => rw [hd] at h2; simp at h2
    | cons a l =>
      rw [hd] at h2
      cases l with
      | nil =>
        simp only [List.map_cons, List.map_nil, List.cons.injEq, and_true] at h2
        have ha : a = 0 := by omega
        have h4 := Nat.ofDigits_digits 10 n
        rw [hd, ha] at h4
        simp [Nat.ofDigits] at h4
        exact hn h4.symm
      | cons b l2 => simp at h2
  · exfalso
    rw [if_neg hm, if_pos hn] at h
    have h2 : (Nat.digits 10 m).map (fun d => d + 48) = [48] := by
      have h3 := congrArg List.reverse h
      simpa using h3
    cases hd : Nat.digits 10 m with
    | nil => rw [hd] at h2; simp at h2
    | cons a l =>
      rw [hd] at h2
      cases l with
      | nil =>
        simp only [List.map_cons, List.map_nil, List.cons.injEq, and_true] at h2
        have ha : a = 0 := by omega
        have h4 := Nat.ofDigits_digits 10 m
        rw [hd, ha] at h4
        simp [Nat.ofDigits] at h4
        exact hm h4.symm
      | cons b l2 => simp at h2
  · rw [if_neg hm, if_neg hn] at h
    have h2 := List.reverse_inj.mp h
    have hf : Function.Injective (fun d : Nat => d + 48) := fun a b hab =>
      Nat.add_right_cancel hab
    have h3 := List.map_injective_iff.mpr hf h2
    exact Nat.digits.injective 10 h3

/-- Altering the callback name changes the authenticated bytes. -/
theorem timeoutMsg_name_ne (r : CallbackRequest) (x : Bytes) (hx : x ≠ r.name) :
    timeoutMsg { r with name := x } ≠ timeoutMsg r := by
  unfold timeoutMsg
  intro h
  exact hx (List.append_cancel_right h)

/-- Altering the thread id changes the authenticated bytes. -/
theorem timeoutMsg_threadID_ne (r : CallbackRequest) (x : Bytes) (hx : x ≠ r.threadID) :
    timeoutMsg { r with threadID := x } ≠ timeoutMsg r := by
  unfold timeoutMsg
  intro h
  exact hx (List.append_cancel_right (List.append_cancel_left h))

/-- Altering the workflow id changes the authenticated bytes. -/
theorem timeoutMsg_workflowID_ne (r : CallbackRequest) (x : Bytes) (hx : x ≠ r.workflowID) :
    timeoutMsg { r with workflowID := x } ≠ timeoutMsg r := by
  unfold timeoutMsg
  intro h
  exact hx
    (List.append_cancel_right (List.append_cancel_left (List.append_cancel_left h)))

/-- Altering the program counter changes the authenticated bytes. -/
theorem timeoutMsg_pc_ne (r : CallbackRequest) (p : Nat) (hp : p ≠ r.pc) :
    timeoutMsg { r with pc := p } ≠ timeoutMsg r := by
  unfold timeoutMsg
  intro h
  exact hp (natDecimal_injective
    (List.append_cancel_left (List.append_cancel_left (List.append_cancel_left h))))

/-! ## Claim theorems -/

/-- C1: the lease acquisition write of `Lock` is conditioned on the
last-update time of the document observed at read time, and a committed write
bumps that update time.  Hence of two concurrent `Lock` calls that both
observed the same document version with the lease free, whichever
conditional update the store serializes first succeeds (installing a
lease of one `leaseDuration` from its instant), and the update of the other is
rejected: at most one caller acquires the lease, so at most one
coordinated mutation is in flight per instance. -/
theorem lock_conditional_update_mutual_exclusion
    (d d₁ : Doc) (v : Nat) (t₁ t₂ : Int)
    (h : lockUpdate d v t₁ = some d₁) :
    lockUpdate d₁ v t₂ = none
    ∧ d₁.version = v + 1
    ∧ d₁.lockTill = t₁ + leaseDuration := by
  unfold lockUpdate at h
  split at h
  case isTrue hv =>
    obtain rfl := (Option.some.inj h).symm
    refine ⟨?_, by simp [hv], rfl⟩
    unfold lockUpdate
    simp [hv]
  case isFalse hv => cases h

/-- Witness for C1: a concrete document at version 0; the first acquire
commits, the second (based on the same observed version) is rejected. -/
theorem lock_conditional_update_mutual_exclusion_witness :
    lockUpdate ⟨⟨"a", "w", 3, "r"⟩, "s", 65, 1, "x"⟩ 0 7 = none
    ∧ (⟨⟨"a", "w", 3, "r"⟩, "s", 65, 1, "x"⟩ : Doc).version = 0 + 1
    ∧ (⟨⟨"a", "w", 3, "r"⟩, "s", 65, 1, "x"⟩ : Doc).lockTill = 5 + leaseDuration :=
  lock_conditional_update_mutual_exclusion
    ⟨⟨"a", "w", 3, "r"⟩, "s", 0, 0, "x"⟩ _ 0 5 7 (by decide)

/-- C3: a `Lock` call that observes the lease held on every read times
out: it performs exactly 52 document reads (the initial attempt, 50
backoff retries sleeping `100 * i` ms at loop counter `i = 0,…,50`, and
the final read at counter 51 that returns the lock-timeout error), never
attempting the conditional write, so no mutation occurs; and a
conditional update rejected with `FailedPrecondition` makes the loop
retry the whole read-check-write sequence instead of failing. -/
theorem lock_retry_budget_and_contention :
    (∀ env : List LockIter, (∀ it ∈ env, heldIter it = true) → 52 ≤ env.length →
      Lock env = ⟨.err .timeout, 52, 0, (List.range 51).map (fun k => 100 * k)⟩)
    ∧ (∀ (it : LockIter) (rest : List LockIter) (i : Nat) (wf : Doc),
        it.read = .ok wf → lockIsHeld it.now wf.lockTill = false →
        it.upd = .failedPrecondition →
        (lockLoop (it :: rest) i).status = (lockLoop rest (i + 1)).status) := by
  constructor
  · intro env hheld hlen
    have h := lockLoop_allHeld env 0 hheld (by omega) (by omega)
    unfold Lock
    rw [h]
    simp only [Nat.sub_zero, Nat.zero_add]
  · intro it rest i wf hread hfree hupd
    simp [lockLoop, hread, hfree, hupd]

/-- Witness for C3: a trace of 52 reads all observing a live lease
(`LockTill = 1`, `now = 0`) ends in the lock-timeout error with no write
attempted. -/
theorem lock_retry_budget_and_contention_witness :
    Lock (List.replicate 52 ⟨0, .ok ⟨⟨"a", "w", 0, "r"⟩, "s", 1, 0, ""⟩, .ok⟩)
      = ⟨.err .timeout, 52, 0, (List.range 51).map (fun k => 100 * k)⟩ :=
  lock_retry_budget_and_contention.1 _ (by decide) (by decide)

/-- C4: `Save` is a single committed batch write that installs `Meta` and
`State` together; with `releaseLock = true` it clears `LockTill` to zero
in that same write and with `releaseLock = false` it leaves `LockTill`
unchanged; no other stored field changes.  Consequently a subsequent
`Lock` by another caller succeeds on its first attempt after a releasing
save, while after a non-releasing save it still observes the lease
held. -/
theorem save_atomic_update_and_lease_semantics
    (d : Doc) (m : Meta) (s : String) (now : Int) (u : UpdResult)
    (hnow : 0 ≤ now) (hheld : now < d.lockTill) :
    Save d m s true = ⟨m, s, 0, d.version + 1, d.extra⟩
    ∧ Save d m s false = ⟨m, s, d.lockTill, d.version + 1, d.extra⟩
    ∧ Lock [⟨now, .ok (Save d m s true), .ok⟩] = ⟨.ok (Save d m s true), 1, 1, []⟩
    ∧ heldIter ⟨now, .ok (Save d m s false), u⟩ = true := by
  have hfree : lockIsHeld now (Save d m s true).lockTill = false := by
    show decide (now - 0 < 0) = false
    rw [decide_eq_false_iff_not]
    omega
  refine ⟨rfl, rfl, ?_, ?_⟩
  · simp [Lock, lockLoop, hfree]
  · show decide (now - d.lockTill < 0) = true
    rw [decide_eq_true_eq]
    omega

/-- Witness for C4 at a concrete held document and instant. -/
theorem save_atomic_update_and_lease_semantics_witness :
    Save ⟨⟨"a", "w", 2, "r"⟩, "old", 9, 4, "x"⟩ ⟨"a", "w", 3, "r"⟩ "new" true
        = ⟨⟨"a", "w", 3, "r"⟩, "new", 0, 5, "x"⟩
    ∧ Save ⟨⟨"a", "w", 2, "r"⟩, "old", 9, 4, "x"⟩ ⟨"a", "w", 3, "r"⟩ "new" false
        = ⟨⟨"a", "w", 3, "r"⟩, "new", 9, 5, "x"⟩
    ∧ Lock [⟨3, .ok (Save ⟨⟨"a", "w", 2, "r"⟩, "old", 9, 4, "x"⟩ ⟨"a", "w", 3, "r"⟩ "new" true),
          .ok⟩]
        = ⟨.ok (Save ⟨⟨"a", "w", 2, "r"⟩, "old", 9, 4, "x"⟩ ⟨"a", "w", 3, "r"⟩ "new" true), 1, 1, []⟩
    ∧ heldIter ⟨3, .ok (Save ⟨⟨"a", "w", 2, "r"⟩, "old", 9, 4, "x"⟩ ⟨"a", "w", 3, "r"⟩ "new" false),
          .ok⟩ = true :=
  save_atomic_update_and_lease_semantics
    ⟨⟨"a", "w", 2, "r"⟩, "old", 9, 4, "x"⟩ ⟨"a", "w", 3, "r"⟩ "new" 3 .ok
    (by decide) (by decide)

/-- C2 counterexample: a `HandleEvent` run that acquires the lock, passes
hydrate and the interpreter, and then fails the checkpoint save returns
with the lease still held — no `Unlock` is called and the releasing save
did not commit, so release is not guaranteed on the persistence-failure
exit path. -/
theorem handleEvent_save_failure_leaves_lease_held :
    ((HandleEvent ⟨some ⟨⟨"a", "w", 0, "r"⟩, "s", 0, 0, ""⟩, true, true, true,
        some "out", true, false, true⟩).2.2).contains .lockAcq = true
    ∧ leaseReleased (HandleEvent ⟨some ⟨⟨"a", "w", 0, "r"⟩, "s", 0, 0, ""⟩, true, true, true,
        some "out", true, false, true⟩).2.2 = false := by
  decide

/-- C2 (amended): for every operation that successfully acquires the
lock, the lease is released on every exit path — hydrate failures,
interpreter failures, and success — except when the checkpoint save
itself fails: on that one path neither an `Unlock` nor a committed
releasing save happens, and the lease is left to expire on its own. -/
theorem lease_released_on_all_paths_except_save_failure (env : EngineEnv)
    (hlock : env.lock.isSome = true) :
    ((HandleEvent env).2.1 ≠ some .saveErr → leaseReleased (HandleEvent env).2.2 = true)
    ∧ ((HandleCallback env).2.1 ≠ some .saveErr → leaseReleased (HandleCallback env).2.2 = true)
    ∧ ((Resume env).1 ≠ some .saveErr → leaseReleased (Resume env).2 = true) := by
  obtain ⟨lk, wfF, mOk, umOk, io, iOk, sOk, schOk⟩ := env
  cases lk with
  | none => simp at hlock
  | some d =>
    cases wfF <;> cases mOk <;> cases umOk <;> cases iOk <;> cases sOk <;>
      simp [HandleEvent, HandleCallback, Resume, leaseReleased, releasesLease]

/-- Witness for the amended C2 at a concrete successful run. -/
theorem lease_released_on_all_paths_except_save_failure_witness :
    ((HandleEvent ⟨some ⟨⟨"a", "w", 0, "r"⟩, "s", 0, 0, ""⟩, true, true, true,
        some "out", true, true, true⟩).2.1 ≠ some .saveErr →
      leaseReleased (HandleEvent ⟨some ⟨⟨"a", "w", 0, "r"⟩, "s", 0, 0, ""⟩, true, true, true,
        some "out", true, true, true⟩).2.2 = true)
    ∧ ((HandleCallback ⟨some ⟨⟨"a", "w", 0, "r"⟩, "s", 0, 0, ""⟩, true, true, true,
        some "out", true, true, true⟩).2.1 ≠ some .saveErr →
      leaseReleased (HandleCallback ⟨some ⟨⟨"a", "w", 0, "r"⟩, "s", 0, 0, ""⟩, true, true, true,
        some "out", true, true, true⟩).2.2 = true)
    ∧ ((Resume ⟨some ⟨⟨"a", "w", 0, "r"⟩, "s", 0, 0, ""⟩, true, true, true,
        some "out", true, true, true⟩).1 ≠ some .saveErr →
      leaseReleased (Resume ⟨some ⟨⟨"a", "w", 0, "r"⟩, "s", 0, 0, ""⟩, true, true, true,
        some "out", true, true, true⟩).2 = true) :=
  lease_released_on_all_paths_except_save_failure _ (by decide)

/-- C7 counterexample: a fully successful `Resume` run issues no
schedule call at all — its trace contains no goroutine launch — so the
claimed concurrent `Save` + `Schedule` pair does not exist in `Resume`. -/
theorem resume_issues_no_schedule_call :
    (Resume ⟨some ⟨⟨"a", "w", 0, "r"⟩, "s", 0, 0, ""⟩, true, true, true,
        none, true, true, true⟩).1 = none
    ∧ ((Resume ⟨some ⟨⟨"a", "w", 0, "r"⟩, "s", 0, 0, ""⟩, true, true, true,
        none, true, true, true⟩).2).contains .scheduleStart = false := by
  decide

/-- C7 (amended): in `HandleEvent` and `HandleCallback` the releasing
`Save` and the redundant `Schedule` run concurrently — the goroutine is
launched before the save and joined (`wg.Wait`) before the reply on every
successful run — the outputs of the operation are independent of the schedule
result (its failure is only logged), and a save failure fails the
operation; `Resume`, however, performs only the save and never issues a
schedule call. -/
theorem persist_reschedule_discipline (env : EngineEnv) :
    (env.lock.isSome = true → env.wfFound = true → env.marshalOk = true →
     env.unmarshalOk = true → env.interpOk = true → env.saveOk = true →
      (HandleEvent env).2.2
          = [.lockAcq, .scheduleStart, .save true true, .scheduleDone env.scheduleOk, .reply]
        ∧ (HandleCallback env).2.2
          = [.lockAcq, .scheduleStart, .save true true, .scheduleDone env.scheduleOk, .reply])
    ∧ ((HandleEvent env).1 = (HandleEvent { env with scheduleOk := true }).1
        ∧ (HandleEvent env).2.1 = (HandleEvent { env with scheduleOk := true }).2.1
        ∧ (HandleCallback env).1 = (HandleCallback { env with scheduleOk := true }).1
        ∧ (HandleCallback env).2.1 = (HandleCallback { env with scheduleOk := true }).2.1)
    ∧ (env.lock.isSome = true → env.wfFound = true → env.marshalOk = true →
       env.unmarshalOk = true → env.interpOk = true → env.saveOk = false →
      (HandleEvent env).2.1 = some .saveErr ∧ (HandleCallback env).2.1 = some .saveErr)
    ∧ ((Resume env).2.contains .scheduleStart = false) := by
  obtain ⟨lk, wfF, mOk, umOk, io, iOk, sOk, schOk⟩ := env
  cases lk <;> cases wfF <;> cases mOk <;> cases umOk <;> cases iOk <;> cases sOk <;>
    simp [HandleEvent, HandleCallback, Resume]

/-- Witness for the amended C7 at a concrete successful run. -/
theorem persist_reschedule_discipline_witness :
    (HandleEvent ⟨some ⟨⟨"a", "w", 0, "r"⟩, "s", 0, 0, ""⟩, true, true, true,
        some "out", true, true, false⟩).2.2
      = [.lockAcq, .scheduleStart, .save true true, .scheduleDone false, .reply]
    ∧ (HandleCallback ⟨some ⟨⟨"a", "w", 0, "r"⟩, "s", 0, 0, ""⟩, true, true, true,
        some "out", true, true, false⟩).2.2
      = [.lockAcq, .scheduleStart, .save true true, .scheduleDone false, .reply] :=
  (persist_reschedule_discipline _).1 (by decide) (by decide) (by decide) (by decide)
    (by decide) (by decide)

/-- C10: when the checkpoint save fails after a successful interpreter
invocation, `HandleEvent` and `HandleCallback` return the interpreter
output together with the non-nil saving error, so a caller can observe
both a non-nil output and a non-nil error from the same call. -/
theorem save_failure_returns_output_and_error (env : EngineEnv) (o : String)
    (hlock : env.lock.isSome = true) (hwf : env.wfFound = true)
    (hm : env.marshalOk = true) (hum : env.unmarshalOk = true)
    (hio : env.interpOut = some o) (hiok : env.interpOk = true)
    (hs : env.saveOk = false) :
    ((HandleEvent env).1 = some o ∧ (HandleEvent env).2.1 = some .saveErr)
    ∧ ((HandleCallback env).1 = some o ∧ (HandleCallback env).2.1 = some .saveErr) := by
  obtain ⟨lk, wfF, mOk, umOk, io, iOk, sOk, schOk⟩ := env
  cases lk with
  | none => simp at hlock
  | some d =>
    simp only at hwf hm hum hio hiok hs
    subst hwf hm hum hio hiok hs
    simp [HandleEvent, HandleCallback]

/-- Witness for C10 at a concrete run whose save fails. -/
theorem save_failure_returns_output_and_error_witness :
    ((HandleEvent ⟨some ⟨⟨"a", "w", 0, "r"⟩, "s", 0, 0, ""⟩, true, true, true,
        some "payload", true, false, true⟩).1 = some "payload"
      ∧ (HandleEvent ⟨some ⟨⟨"a", "w", 0, "r"⟩, "s", 0, 0, ""⟩, true, true, true,
        some "payload", true, false, true⟩).2.1 = some .saveErr)
    ∧ ((HandleCallback ⟨some ⟨⟨"a", "w", 0, "r"⟩, "s", 0, 0, ""⟩, true, true, true,
        some "payload", true, false, true⟩).1 = some "payload"
      ∧ (HandleCallback ⟨some ⟨⟨"a", "w", 0, "r"⟩, "s", 0, 0, ""⟩, true, true, true,
        some "payload", true, false, true⟩).2.1 = some .saveErr) :=
  save_failure_returns_output_and_error _ "payload" (by decide) (by decide) (by decide)
    (by decide) (by decide) (by decide) (by decide)

/-- C8, evaluated at the failing input: creating instance `order-1` of
type `checkout` from the fresh constructor value `fresh0`, with an
initial interpreter `Resume` that steps the state object to
`fresh0+stepped` and the program counter to 1.  The initial `Resume`
does run before the `Create` (the trace), and it did step the state
object; but the committed document pairs the post-Resume metadata
(program counter 1) with `State = fresh0`, the pre-Resume argument — the
resumed state object is discarded — so a reader of the created document
does see state that has not gone through the initial `Resume`, against
the claim.  The pre-create `Resume` was added to this revision precisely
to make the new instance stepped before it becomes visible, and every
sibling operation persists the state object the interpreter mutated, so
the dropped assignment of the resumed state is a slip in the code. -/
theorem created_document_state_bypasses_initial_resume :
    (ScheduleAndCreate ⟨true, true, true⟩ "order-1" "checkout" "fresh0" "fresh0"
        (fun s m => (s ++ "+stepped", ⟨m.id, m.workflow, m.pc + 1, m.status⟩))).events
      = [.resumeRun true, .create true, .reply]
    ∧ (ScheduleAndCreate ⟨true, true, true⟩ "order-1" "checkout" "fresh0" "fresh0"
        (fun s m => (s ++ "+stepped", ⟨m.id, m.workflow, m.pc + 1, m.status⟩))).created
      = some ⟨⟨"order-1", "checkout", 1, ""⟩, "fresh0", 0, 0, ""⟩
    ∧ ((fun (s : String) (m : Meta) =>
          (s ++ "+stepped", (⟨m.id, m.workflow, m.pc + 1, m.status⟩ : Meta)))
        "fresh0" (NewState "order-1" "checkout")).1 = "fresh0+stepped" := by
  decide

/-- C5: any queue-delivered callback (timeout or resume) whose recomputed
tag does not match the claimed tag is answered 403 before any engine
call: the engine transformer is never invoked and the stored document is
returned unchanged, whatever the engine would have done. -/
theorem tampered_signature_rejected_before_state_touched
    (mac : Mac) (secret : Bytes) (engineT engineR : Doc → Doc × Bool) (stored : Doc)
    (treq : TimeoutReq) (rreq : ResumeRequest)
    (ht : verifyTimeout mac secret treq.req treq.signature = false)
    (hr : verifyResume mac secret rreq.id rreq.signature = false) :
    TimeoutHTTPHandler mac secret (some treq) engineT stored = (403, stored, false)
    ∧ ResumeHTTPHandler mac secret (some rreq) engineR stored = (403, stored, false) := by
  constructor
  · simp [TimeoutHTTPHandler, ht]
  · simp [ResumeHTTPHandler, hr]

/-- Witness for C5: a tampered timeout and resume request against a
concrete tag function; the engine transformer that would rewrite the
document is never reached. -/
theorem tampered_signature_rejected_before_state_touched_witness :
    TimeoutHTTPHandler (fun _ m => m) [7] (some ⟨⟨[1], [2], [3], 4, []⟩, [9]⟩)
        (fun d => (⟨d.meta, "mutated", d.lockTill, d.version, d.extra⟩, true))
        ⟨⟨"a", "w", 0, "r"⟩, "s", 0, 0, ""⟩
      = (403, ⟨⟨"a", "w", 0, "r"⟩, "s", 0, 0, ""⟩, false)
    ∧ ResumeHTTPHandler (fun _ m => m) [7] (some ⟨[1], [9]⟩)
        (fun d => (⟨d.meta, "mutated", d.lockTill, d.version, d.extra⟩, true))
        ⟨⟨"a", "w", 0, "r"⟩, "s", 0, 0, ""⟩
      = (403, ⟨⟨"a", "w", 0, "r"⟩, "s", 0, 0, ""⟩, false) :=
  tampered_signature_rejected_before_state_touched (fun _ m => m) [7] _ _ _
    ⟨⟨[1], [2], [3], 4, []⟩, [9]⟩ ⟨[1], [9]⟩ (by decide) (by decide)

/-- C6: with the keyed digest of the external `crypto/hmac` library
abstracted as a tag function `mac` and its collision-freeness as the
hypothesis `hinj`, verifying the tag produced by signing the same
identifying fields always succeeds (for the timeout callback
name/thread-id/instance-id/program-counter and for the resume request
instance id), and altering any single one of those fields invalidates a
previously valid signature, because the altered field changes the
authenticated byte string. -/
theorem signature_roundtrip_and_single_field_alteration
    (mac : Mac) (secret : Bytes) (hinj : Function.Injective (mac secret)) :
    (∀ r : CallbackRequest, verifyTimeout mac secret r (timeoutHMAC mac secret r) = true)
    ∧ (∀ id : Bytes, verifyResume mac secret id (resumeHMAC mac secret id) = true)
    ∧ (∀ (r : CallbackRequest) (x : Bytes), x ≠ r.name →
        verifyTimeout mac secret { r with name := x } (timeoutHMAC mac secret r) = false)
    ∧ (∀ (r : CallbackRequest) (x : Bytes), x ≠ r.threadID →
        verifyTimeout mac secret { r with threadID := x } (timeoutHMAC mac secret r) = false)
    ∧ (∀ (r : CallbackRequest) (x : Bytes), x ≠ r.workflowID →
        verifyTimeout mac secret { r with workflowID := x } (timeoutHMAC mac secret r) = false)
    ∧ (∀ (r : CallbackRequest) (p : Nat), p ≠ r.pc →
        verifyTimeout mac secret { r with pc := p } (timeoutHMAC mac secret r) = false)
    ∧ (∀ (id x : Bytes), x ≠ id →
        verifyResume mac secret x (resumeHMAC mac secret id) = false) := by
  refine ⟨?_, ?_, ?_, ?_, ?_, ?_, ?_⟩
  · intro r
    simp [verifyTimeout]
  · intro id
    simp [verifyResume]
  · intro r x hx
    simp only [verifyTimeout, timeoutHMAC, beq_eq_false_iff_ne, ne_eq]
    intro h
    exact timeoutMsg_name_ne r x hx (hinj h)
  · intro r x hx
    simp only [verifyTimeout, timeoutHMAC, beq_eq_false_iff_ne, ne_eq]
    intro h
    exact timeoutMsg_threadID_ne r x hx (hinj h)
  · intro r x hx
    simp only [verifyTimeout, timeoutHMAC, beq_eq_false_iff_ne, ne_eq]
    intro h
    exact timeoutMsg_workflowID_ne r x hx (hinj h)
  · intro r p hp
    simp only [verifyTimeout, timeoutHMAC, beq_eq_false_iff_ne, ne_eq]
    intro h
    exact timeoutMsg_pc_ne r p hp (hinj h)
  · intro id x hx
    simp only [verifyResume, resumeHMAC, beq_eq_false_iff_ne, ne_eq]
    intro h
    exact hx (hinj h)

/-- Witness for C6: a concrete injective tag function; the round trip
verifies and a single-field alteration (the callback name) fails to
verify against the original tag. -/
theorem signature_roundtrip_and_single_field_alteration_witness :
    verifyTimeout (fun _ m => m) [] ⟨[1], [2], [3], 4, []⟩
        (timeoutHMAC (fun _ m => m) [] ⟨[1], [2], [3], 4, []⟩) = true
    ∧ verifyTimeout (fun _ m => m) [] ⟨[9], [2], [3], 4, []⟩
        (timeoutHMAC (fun _ m => m) [] ⟨[1], [2], [3], 4, []⟩) = false :=
  ⟨(signature_roundtrip_and_single_field_alteration (fun _ m => m) []
      (fun _ _ h => h)).1 ⟨[1], [2], [3], 4, []⟩,
   (signature_roundtrip_and_single_field_alteration (fun _ m => m) []
      (fun _ _ h => h)).2.2.1 ⟨[1], [2], [3], 4, []⟩ [9] (by decide)⟩

/-- C9: `Teardown` with `alreadyHandled = true` is a no-op issuing no
deletion and returning no error; with `alreadyHandled = false` and a
`SetupData` produced by the matching `Setup`, it issues exactly one
deletion, for precisely the task name `Setup` recorded, and returns no
error whether or not that deletion succeeds (the failure is only
logged). -/
theorem teardown_deletion_discipline
    (req : CallbackRequest) (deleteOk : Bool) (taskID : Bytes)
    (hmatch : req.setupData = SetupHandle taskID) :
    Teardown req true deleteOk = (none, [])
    ∧ Teardown req false deleteOk = (none, [taskID]) := by
  constructor
  · simp [Teardown]
  · simp [Teardown, hmatch, SetupHandle, marshalSchedulerData, unmarshalSchedulerData]

/-- Witness for C9 at a concrete request whose `SetupData` came from
`Setup` recording task name `[5, 6]`, with a failing delete call. -/
theorem teardown_deletion_discipline_witness :
    Teardown ⟨[1], [2], [3], 4, SetupHandle [5, 6]⟩ true false = (none, [])
    ∧ Teardown ⟨[1], [2], [3], 4, SetupHandle [5, 6]⟩ false false = (none, [[5, 6]]) :=
  teardown_deletion_discipline ⟨[1], [2], [3], 4, SetupHandle [5, 6]⟩ false [5, 6] (by decide)

end Gasync
